import Mathlib

/-
Shallow embedding of the execution-backend dispatcher of MoonGRES:
src/crates/moon/src/run/runtime.rs (runtime executable cache, command
dispatcher, JS driver synthesis, command guard) and the process-wide
executable resolvers of src/crates/moonbuild/src/lib.rs. Machine strings
are Lean strings, filesystem paths are strings, and the effects of the
Rust code (which-lookups, tempdir creation, file writes, panics) are made
explicit through environment records and an outcome type.
-/

/-- Model of Rust str prefix testing on character lists. -/
def listStartsWith : List Char → List Char → Bool
  | [], _ => true
  | _ :: _, [] => false
  | p :: ps, c :: cs => p = c && listStartsWith ps cs

/-- Fuel-indexed worker for the model of Rust str::replace: replaces every
non-overlapping occurrence of the pattern, scanning left to right. The fuel
is the length of the scanned list, which suffices because every step
consumes at least one character (all patterns used here are nonempty). -/
def replaceFuel (pat rep : List Char) : Nat → List Char → List Char
  | 0, s => s
  | _ + 1, [] => []
  | fuel + 1, c :: rest =>
    if listStartsWith pat (c :: rest) then
      rep ++ replaceFuel pat rep fuel (List.drop (pat.length - 1) rest)
    else
      c :: replaceFuel pat rep fuel rest

/-- Model of Rust str::replace (self, from, to): replace all non-overlapping
occurrences of a nonempty pattern, left to right. -/
def strReplace (s pat rep : String) : String :=
  ⟨replaceFuel pat.data rep.data s.data.length s.data⟩

/-- Worker for substring containment on character lists. -/
def containsSubstrChars (pat : List Char) : List Char → Bool
  | [] => listStartsWith pat []
  | c :: rest => listStartsWith pat (c :: rest) || containsSubstrChars pat rest

/-- Substring containment test, used to state the driver-synthesis
round-trip properties of the spec. -/
def strContains (s pat : String) : Bool := containsSubstrChars pat.data s.data

/-- Model of Rust format! with the Debug formatter applied to one character
of a string: backslash escapes for quote, backslash and the common control
characters, all other characters unchanged. -/
def rustDebugChar (c : Char) : String :=
  if c = '\\' then "\\\\"
  else if c = '\x22' then "\\\x22"
  else if c = '\n' then "\\n"
  else if c = '\t' then "\\t"
  else if c = '\r' then "\\r"
  else String.singleton c

/-- Model of Rust format! with the Debug formatter on a String value: the
escaped text between double quotes. -/
def rustDebugStr (s : String) : String :=
  "\x22" ++ String.join (s.data.map rustDebugChar) ++ "\x22"

/-- The closed enumeration of execution targets (moonutil::common::TargetBackend
as matched in src/crates/moon/src/run/runtime.rs). The MoonGRES variant is
feature-gated in Rust; it is modelled here with that feature enabled, so the
corresponding dispatch arm exists. -/
inductive TargetBackend where
  | Wasm
  | WasmGC
  | Js
  | Native
  | LLVM
  | MoonGRES
deriving DecidableEq

/-- Modelled from the spec: moonbuild::entry::TestArgs is not under src/.
The spec treats it as an opaque record exposing a package identifier, a
canonical serialized form and a native command-line rendering. The code
under src/ fixes the shapes of the views it consumes: serde_json::to_string
returns a Result modelled as an Option (none for a serialization failure),
and to_args and to_cli_args_for_native are each used in a single-string
position (a format! argument and a single Command::arg call respectively),
so both are single strings. native_tokens is the spec view
native_argument_tokens(), the rendering seen as a flattened token list. -/
structure TestArgs where
  package : String
  serde_json : Option String
  to_args : String
  to_cli_args_for_native : String
  native_tokens : List String

/-- Model of tokio::process::Command: the program plus its ordered argument
list (working directory and environment are inherited and not modelled). -/
structure Command where
  program : String
  args : List String
deriving DecidableEq

/-- Command::new. -/
def Command.new (program : String) : Command := ⟨program, []⟩

/-- Command::arg: append one argument token. -/
def Command.arg (c : Command) (a : String) : Command := ⟨c.program, c.args ++ [a]⟩

/-- The full token sequence of an invocation: program followed by arguments. -/
def Command.tokens (c : Command) : List String := c.program :: c.args

/-- CommandGuard (runtime.rs): a command together with the optionally owned
temporary directory (the TempDir is modelled by its path). -/
structure CommandGuard where
  temp_file : Option String
  command : Command
deriving DecidableEq

/-- The From Command impl for CommandGuard: wrap a command with no owned
temporary directory. -/
def CommandGuard.ofCommand (c : Command) : CommandGuard := ⟨none, c⟩

/-- Outcome of running a piece of the Rust code: a normal return, an Err on
the anyhow channel, or a process abort raised by panic, expect or unwrap. -/
inductive Outcome (α : Type) where
  | ok : α → Outcome α
  | err : String → Outcome α
  | aborted : String → Outcome α
deriving DecidableEq

/-- Whether an outcome is an Err on the anyhow result channel. -/
def Outcome.isErr {α : Type} : Outcome α → Bool
  | .err _ => true
  | _ => false

/-- Whether an outcome is a process abort (panic, expect or unwrap). -/
def Outcome.isAbort {α : Type} : Outcome α → Bool
  | .aborted _ => true
  | _ => false

/-- Environment for which::which search-path lookup: some resolved path
when the name is discoverable on the search path, none otherwise. -/
structure WhichEnv where
  which : String → Option String

/-- One expansion of the body generated by the cache! macro: try
which::which on the first candidate, or_else on each further candidate in
order, and unwrap_or the first candidate name itself as a literal path. -/
def resolveChain (env : WhichEnv) (first : String) (rest : List String) : String :=
  match (first :: rest).findSome? env.which with
  | some p => p
  | none => first

/-- RuntimeExecutableCache (cache! macro expansion): one OnceCell per
logical runtime, with candidate lists node("node", "node.cmd"),
moonrun("moonrun") and rustica_engine("rustica-engine",
"rustica-engine.exe"); the feature-gated rustica_engine cell is modelled
with its feature enabled. -/
structure RuntimeExecutableCache where
  node : Option String
  moonrun : Option String
  rustica_engine : Option String
deriving DecidableEq

/-- RuntimeExecutableCache::default(): every cell empty. -/
def RuntimeExecutableCache.empty : RuntimeExecutableCache := ⟨none, none, none⟩

/-- Value returned by the node() accessor: OnceCell::get_or_init gives the
cached value when present, otherwise the fresh resolution. -/
def RuntimeExecutableCache.nodePath (c : RuntimeExecutableCache) (env : WhichEnv) : String :=
  match c.node with
  | some p => p
  | none => resolveChain env "node" ["node.cmd"]

/-- Value returned by the moonrun() accessor. -/
def RuntimeExecutableCache.moonrunPath (c : RuntimeExecutableCache) (env : WhichEnv) : String :=
  match c.moonrun with
  | some p => p
  | none => resolveChain env "moonrun" []

/-- Value returned by the rustica_engine() accessor. -/
def RuntimeExecutableCache.rusticaEnginePath (c : RuntimeExecutableCache) (env : WhichEnv) : String :=
  match c.rustica_engine with
  | some p => p
  | none => resolveChain env "rustica-engine" ["rustica-engine.exe"]

/-- OnceCell::get_or_init with the cell state passed explicitly and a count
of how many times the initialization closure (the underlying search) ran. -/
def getOrInitCounted (cell : Option String) (f : Unit → String) : String × Option String × Nat :=
  match cell with
  | some p => (p, some p, 0)
  | none =>
    let p := f ()
    (p, some p, 1)

/-- The node() accessor with explicit cell state and search count. -/
def RuntimeExecutableCache.nodeResolve (c : RuntimeExecutableCache) (env : WhichEnv) :
    String × RuntimeExecutableCache × Nat :=
  match getOrInitCounted c.node (fun _ => resolveChain env "node" ["node.cmd"]) with
  | (p, cell, n) => (p, ⟨cell, c.moonrun, c.rustica_engine⟩, n)

/-- The moonrun() accessor with explicit cell state and search count. -/
def RuntimeExecutableCache.moonrunResolve (c : RuntimeExecutableCache) (env : WhichEnv) :
    String × RuntimeExecutableCache × Nat :=
  match getOrInitCounted c.moonrun (fun _ => resolveChain env "moonrun" []) with
  | (p, cell, n) => (p, ⟨c.node, cell, c.rustica_engine⟩, n)

/-- The rustica_engine() accessor with explicit cell state and search count. -/
def RuntimeExecutableCache.rusticaEngineResolve (c : RuntimeExecutableCache) (env : WhichEnv) :
    String × RuntimeExecutableCache × Nat :=
  match getOrInitCounted c.rustica_engine (fun _ => resolveChain env "rustica-engine" ["rustica-engine.exe"]) with
  | (p, cell, n) => (p, ⟨c.node, c.moonrun, cell⟩, n)

/-- Environment for the filesystem operations of create_js_driver: the
outcome of TempDir::new (some fresh directory path, or none for a creation
failure) and the per-path success of std::fs::write. -/
structure FsEnv where
  temp_dir : Option String
  write_ok : String → Bool

/-- Modelled from the spec: the embedded template
moonbuild/template/test_driver/js_driver.js is not under src/. Per the spec
it is a fixed script with three replaceable placeholders: the path
placeholder origin_js_path, the empty parameter-list assignment and the
empty package-name assignment. -/
def js_driver_text : String :=
  "const program = require(\x22origin_js_path\x22)\nlet testParams = []\nlet packageName = \x22\x22\nprogram.moonbit_test_driver_internal_execute(testParams, packageName)\n"

/-- The three literal substitutions create_js_driver performs on the
template, in source order: the path placeholder becomes the artifact path
with backslashes normalized to forward slashes, the testParams assignment
receives to_args, and the packageName assignment receives the
Debug-formatted package name. -/
def js_driver_substituted (js_path : String) (test_args : TestArgs) : String :=
  strReplace
    (strReplace
      (strReplace js_driver_text "origin_js_path" (strReplace js_path "\\" "/"))
      "let testParams = []"
      ("let testParams = " ++ test_args.to_args))
    "let packageName = \x22\x22"
    ("let packageName = " ++ rustDebugStr test_args.package)

/-- create_js_driver (runtime.rs): substitute the template, create a
temporary directory, write driver.cjs and then package.json (contents an
empty object) into it, and return the directory with the script path. The
filesystem effects are explicit: the ok result carries the returned pair
together with the list of (path, contents) writes performed. Every
filesystem failure aborts through expect rather than using the Err channel. -/
def create_js_driver (fs : FsEnv) (js_path : String) (test_args : TestArgs) :
    Outcome ((String × String) × List (String × String)) :=
  let js_driver := js_driver_substituted js_path test_args
  match fs.temp_dir with
  | none => .aborted "Failed to create temporary directory for JS testing script"
  | some dir =>
    let js_file := dir ++ "/driver.cjs"
    if fs.write_ok js_file then
      let package_json := dir ++ "/package.json"
      if fs.write_ok package_json then
        .ok ((dir, js_file), [(js_file, js_driver), (package_json, "\x7b\x7d")])
      else .aborted "Failed to write temporary package.json for JS testing script"
    else .aborted "Failed to write temporary JS test driver script"

/-- command_for_cached (runtime.rs): the backend command dispatcher. The
which environment and the filesystem environment are passed explicitly;
serde_json::to_string failures and create_js_driver filesystem failures
abort (unwrap and expect in the source), and the question-mark propagation
of create_js_driver forwards its Err channel. -/
def command_for_cached (env : WhichEnv) (fs : FsEnv) (cache : RuntimeExecutableCache)
    (backend : TargetBackend) (mbt_executable : String) (test : Option TestArgs) :
    Outcome CommandGuard :=
  match backend with
  | .Wasm | .WasmGC =>
    let cmd := Command.new (cache.moonrunPath env)
    match test with
    | some t =>
      match t.serde_json with
      | some s =>
        .ok (CommandGuard.ofCommand ((((cmd.arg "--test-args").arg s).arg mbt_executable).arg "--"))
      | none => .aborted "called Result::unwrap() on an Err value"
    | none => .ok (CommandGuard.ofCommand ((cmd.arg mbt_executable).arg "--"))
  | .MoonGRES =>
    let cmd := Command.new (cache.rusticaEnginePath env)
    match test with
    | some t =>
      match t.serde_json with
      | some s =>
        .ok (CommandGuard.ofCommand ((((cmd.arg "moontest").arg "--spec").arg s).arg mbt_executable |>.arg "--"))
      | none => .aborted "valid test args"
    | none => .ok (CommandGuard.ofCommand (((cmd.arg "run").arg mbt_executable).arg "--"))
  | .Js =>
    match test with
    | some t =>
      match create_js_driver fs mbt_executable t with
      | .ok ((dir, driver), _) =>
        match t.serde_json with
        | some s =>
          let cmd := ((Command.new (cache.nodePath env)).arg "--enable-source-maps").arg driver
          .ok ⟨some dir, cmd.arg s⟩
        | none => .aborted "Failed to serialize test args"
      | .err e => .err e
      | .aborted m => .aborted m
    | none =>
      .ok (CommandGuard.ofCommand ((Command.new (cache.nodePath env)).arg mbt_executable))
  | .Native | .LLVM =>
    let cmd := Command.new mbt_executable
    match test with
    | some t => .ok (CommandGuard.ofCommand (cmd.arg t.to_cli_args_for_native))
    | none => .ok (CommandGuard.ofCommand cmd)

/-- command_for (runtime.rs): build a fresh default cache and delegate to
command_for_cached. -/
def command_for (env : WhichEnv) (fs : FsEnv) (backend : TargetBackend)
    (mbt_executable : String) (test : Option TestArgs) : Outcome CommandGuard :=
  command_for_cached env fs RuntimeExecutableCache.empty backend mbt_executable test

/-- Token sequence of the command held by a successfully built guard. -/
def guardTokens (o : Outcome CommandGuard) : Option (List String) :=
  match o with
  | .ok g => some g.command.tokens
  | _ => none

/-- Environment for the process-wide resolvers in
src/crates/moonbuild/src/lib.rs: the directory containing the current
executable (none when std::env::current_exe fails or the path has no
parent), a file-existence test, and which::which search-path lookup. -/
structure ProcEnv where
  exe_dir : Option String
  exists_file : String → Bool
  which : String → Option String

/-- MOONRUN_EXECUTABLE (lib.rs): prefer moonrun next to the current
executable, then fall back to a PATH search; a LazyLock computes this once
per process, modelled as the value that single initialization yields. -/
def moonrun_executable (env : ProcEnv) : Option String :=
  match env.exe_dir with
  | some d =>
    let p := d ++ "/moonrun"
    if env.exists_file p then some p else env.which "moonrun"
  | none => env.which "moonrun"

/-- NODE_EXECUTABLE (lib.rs): PATH search only, candidates node.cmd then
node, no adjacent-to-executable probe. -/
def node_executable (env : ProcEnv) : Option String :=
  ["node.cmd", "node"].findSome? env.which

/-- PYTHON_EXECUTABLE (lib.rs): PATH search only, candidates python3,
python, python3.exe, python.exe, no adjacent-to-executable probe. -/
def python_executable (env : ProcEnv) : Option String :=
  ["python3", "python", "python3.exe", "python.exe"].findSome? env.which

/-- Resolution policy as the spec words it for the process-wide scope:
search the directory adjacent to the current executable first, then fall
back to environment search-path lookup. Stated from the spec for
comparison against the code definitions. -/
def adjacentThenPath (env : ProcEnv) (candidates : List String) : Option String :=
  match env.exe_dir with
  | some d =>
    match candidates.findSome? (fun c => if env.exists_file (d ++ "/" ++ c) then some (d ++ "/" ++ c) else none) with
    | some p => some p
    | none => candidates.findSome? env.which
  | none => candidates.findSome? env.which

/-- Plain environment search-path lookup over a candidate list, first hit
wins. -/
def pathSearchOnly (env : ProcEnv) (candidates : List String) : Option String :=
  candidates.findSome? env.which

/-- A which environment in which no executable is discoverable. -/
def envNoFind : WhichEnv := ⟨fun _ => none⟩

/-- A filesystem environment whose temporary-directory creation fails. -/
def fsFailDir : FsEnv := ⟨none, fun _ => true⟩

/-- A filesystem environment that creates the temporary directory /tmp/x
and in which every write succeeds. -/
def fsOkTmp : FsEnv := ⟨some "/tmp/x", fun _ => true⟩

/-- A concrete test spec whose native rendering corresponds to the token
list [-t, case1]. -/
def tC1 : TestArgs := ⟨"p", some "S", "[]", "-t case1", ["-t", "case1"]⟩

/-- A concrete test spec used for the dispatch-table instances. -/
def tC4 : TestArgs := ⟨"pkg_a", some "S", "[]", "-t case1", ["-t", "case1"]⟩

/-- A concrete test spec with package pkg_a and native rendering for the
token list [--filter, foo]. -/
def tC6 : TestArgs :=
  ⟨"pkg_a", some "S", "[\x22--filter\x22,\x22foo\x22]", "--filter foo", ["--filter", "foo"]⟩

/-- A process environment in which node.cmd exists next to the current
executable but nothing is discoverable on the search path. -/
def envC3 : ProcEnv := ⟨some "/opt/bin", fun p => p == "/opt/bin/node.cmd", fun _ => none⟩

/-- C1 counterexample: the claim as stated is false on the code. The Native
arm of command_for_cached appends the native command-line rendering through
a single Command::arg call, so it contributes exactly one argument token.
For artifact ./prog and a test spec whose native rendering corresponds to
the tokens -t and case1, the built token sequence has two tokens, not the
claimed three-token sequence. -/
theorem c1_native_separate_tokens_counterexample :
    guardTokens (command_for_cached envNoFind fsFailDir RuntimeExecutableCache.empty
        TargetBackend.Native "./prog" (some tC1)) = some ["./prog", "-t case1"] ∧
      some ["./prog", "-t case1"] ≠ some ["./prog", "-t", "case1"] := by
  exact ⟨rfl, by decide⟩

/-- C1 (amended): for the Native and LLVM backends with a test spec
present, the built token sequence is the artifact path followed by the test
spec native command-line rendering appended as one single argument token. -/
theorem c1_native_rendering_single_token (env : WhichEnv) (fs : FsEnv)
    (cache : RuntimeExecutableCache) (path : String) (t : TestArgs) :
    guardTokens (command_for_cached env fs cache TargetBackend.Native path (some t)) =
        some [path, t.to_cli_args_for_native] ∧
      guardTokens (command_for_cached env fs cache TargetBackend.LLVM path (some t)) =
        some [path, t.to_cli_args_for_native] :=
  ⟨rfl, rfl⟩

/-- C2 counterexample: the claim as stated is false on the code. When
temporary-directory creation fails during a JS-backend test dispatch,
command_for_cached does not return an Err: it aborts the process through
the expect call in create_js_driver. -/
theorem c2_js_failure_err_counterexample :
    (command_for_cached envNoFind fsFailDir RuntimeExecutableCache.empty
        TargetBackend.Js "./a.js" (some tC1)).isErr = false ∧
      command_for_cached envNoFind fsFailDir RuntimeExecutableCache.empty
        TargetBackend.Js "./a.js" (some tC1) =
        Outcome.aborted "Failed to create temporary directory for JS testing script" :=
  ⟨rfl, rfl⟩

/-- C2 (amended): when creation of the temporary directory or writing of
the driver script or manifest file fails during a JS-backend test dispatch,
command_for_cached aborts the process (panic via expect) and in particular
does not return the failure as an Err result. -/
theorem c2_js_failure_aborts (env : WhichEnv) (fs : FsEnv)
    (cache : RuntimeExecutableCache) (path : String) (t : TestArgs)
    (h : fs.temp_dir = none ∨
      ∃ d, fs.temp_dir = some d ∧
        (fs.write_ok (d ++ "/driver.cjs") = false ∨ fs.write_ok (d ++ "/package.json") = false)) :
    (command_for_cached env fs cache TargetBackend.Js path (some t)).isAbort = true ∧
      (command_for_cached env fs cache TargetBackend.Js path (some t)).isErr = false := by
  rcases h with h | ⟨d, hd, hw⟩
  · simp [command_for_cached, create_js_driver, h, Outcome.isAbort, Outcome.isErr]
  · rcases hw with hw | hw
    · simp [command_for_cached, create_js_driver, hd, hw, Outcome.isAbort, Outcome.isErr]
    · by_cases h1 : fs.write_ok (d ++ "/driver.cjs")
      · simp [command_for_cached, create_js_driver, hd, h1, hw, Outcome.isAbort, Outcome.isErr]
      · simp [command_for_cached, create_js_driver, hd, h1, Outcome.isAbort, Outcome.isErr]

/-- C2 witness: concrete instance of the amended theorem at a filesystem
environment whose temporary-directory creation fails. -/
theorem c2_js_failure_aborts_witness :
    (command_for_cached envNoFind fsFailDir RuntimeExecutableCache.empty
        TargetBackend.Js "./b.js" (some tC4)).isAbort = true ∧
      (command_for_cached envNoFind fsFailDir RuntimeExecutableCache.empty
        TargetBackend.Js "./b.js" (some tC4)).isErr = false :=
  c2_js_failure_aborts envNoFind fsFailDir RuntimeExecutableCache.empty "./b.js" tC4 (Or.inl rfl)

/-- C8: for every logical runtime name in the per-invocation cache, when no
candidate executable name is discoverable through search-path lookup, the
accessor returns the first candidate name verbatim as a literal path;
resolution is a total function and never fails. -/
theorem c8_fallback_first_candidate (env : WhichEnv)
    (hn : env.which "node" = none) (hnc : env.which "node.cmd" = none)
    (hm : env.which "moonrun" = none)
    (hr : env.which "rustica-engine" = none) (hre : env.which "rustica-engine.exe" = none) :
    RuntimeExecutableCache.empty.nodePath env = "node" ∧
      RuntimeExecutableCache.empty.moonrunPath env = "moonrun" ∧
      RuntimeExecutableCache.empty.rusticaEnginePath env = "rustica-engine" := by
  refine ⟨?_, ?_, ?_⟩ <;>
    simp [RuntimeExecutableCache.nodePath, RuntimeExecutableCache.moonrunPath,
      RuntimeExecutableCache.rusticaEnginePath, RuntimeExecutableCache.empty,
      resolveChain, List.findSome?, hn, hnc, hm, hr, hre]

/-- C8 witness: concrete instance at the environment in which nothing is
discoverable on the search path. -/
theorem c8_fallback_first_candidate_witness :
    RuntimeExecutableCache.empty.nodePath envNoFind = "node" ∧
      RuntimeExecutableCache.empty.moonrunPath envNoFind = "moonrun" ∧
      RuntimeExecutableCache.empty.rusticaEnginePath envNoFind = "rustica-engine" :=
  c8_fallback_first_candidate envNoFind rfl rfl rfl rfl rfl

/-- C9: resolution on a RuntimeExecutableCache instance is idempotent: for
each of the three logical runtime names, resolving twice on the same cache
returns identical paths, and across the two calls the underlying search
procedure runs at most once (the value is memoized lazily on first
access). -/
theorem c9_resolve_idempotent (env : WhichEnv) (c : RuntimeExecutableCache) :
    ((c.nodeResolve env).1 = (((c.nodeResolve env).2.1).nodeResolve env).1 ∧
      (c.nodeResolve env).2.2 + (((c.nodeResolve env).2.1).nodeResolve env).2.2 ≤ 1) ∧
    ((c.moonrunResolve env).1 = (((c.moonrunResolve env).2.1).moonrunResolve env).1 ∧
      (c.moonrunResolve env).2.2 + (((c.moonrunResolve env).2.1).moonrunResolve env).2.2 ≤ 1) ∧
    ((c.rusticaEngineResolve env).1 = (((c.rusticaEngineResolve env).2.1).rusticaEngineResolve env).1 ∧
      (c.rusticaEngineResolve env).2.2 + (((c.rusticaEngineResolve env).2.1).rusticaEngineResolve env).2.2 ≤ 1) := by
  refine ⟨?_, ?_, ?_⟩
  · cases hc : c.node <;>
      simp [RuntimeExecutableCache.nodeResolve, getOrInitCounted, hc]
  · cases hc : c.moonrun <;>
      simp [RuntimeExecutableCache.moonrunResolve, getOrInitCounted, hc]
  · cases hc : c.rustica_engine <;>
      simp [RuntimeExecutableCache.rusticaEngineResolve, getOrInitCounted, hc]

/-- C10: for every backend, artifact path and optional test spec, and in
every which and filesystem environment, command_for and command_for_cached
never return an Err value: each branch either returns Ok or aborts the
process (panic, expect or unwrap), so the Error case of the declared Result
return type is unreachable. -/
theorem c10_never_err (env : WhichEnv) (fs : FsEnv) (cache : RuntimeExecutableCache)
    (backend : TargetBackend) (path : String) (test : Option TestArgs) :
    (command_for_cached env fs cache backend path test).isErr = false ∧
      (command_for env fs backend path test).isErr = false := by
  have hcd : ∀ (p : String) (t : TestArgs), (create_js_driver fs p t).isErr = false := by
    intro p t
    cases htd : fs.temp_dir
    · simp [create_js_driver, htd, Outcome.isErr]
    · rename_i d
      by_cases h1 : fs.write_ok (d ++ "/driver.cjs")
      · by_cases h2 : fs.write_ok (d ++ "/package.json") <;>
          simp [create_js_driver, htd, h1, h2, Outcome.isErr]
      · simp [create_js_driver, htd, h1, Outcome.isErr]
  have hmain : ∀ (c : RuntimeExecutableCache),
      (command_for_cached env fs c backend path test).isErr = false := by
    intro c
    cases backend with
    | Wasm =>
      cases test with
      | none => rfl
      | some t => cases ht : t.serde_json <;> simp [command_for_cached, ht, Outcome.isErr]
    | WasmGC =>
      cases test with
      | none => rfl
      | some t => cases ht : t.serde_json <;> simp [command_for_cached, ht, Outcome.isErr]
    | MoonGRES =>
      cases test with
      | none => rfl
      | some t => cases ht : t.serde_json <;> simp [command_for_cached, ht, Outcome.isErr]
    | Js =>
      cases test with
      | none => rfl
      | some t =>
        simp only [command_for_cached]
        cases hc : create_js_driver fs path t with
        | ok pr =>
          obtain ⟨⟨dir, driver⟩, w⟩ := pr
          cases ht : t.serde_json <;> simp [ht, Outcome.isErr]
        | err e =>
          have h := hcd path t
          rw [hc] at h
          simp [Outcome.isErr] at h
        | aborted m => simp [Outcome.isErr]
    | Native =>
      cases test with
      | none => rfl
      | some t => rfl
    | LLVM =>
      cases test with
      | none => rfl
      | some t => rfl
  exact ⟨hmain cache, hmain RuntimeExecutableCache.empty⟩

/-- C3 counterexample: the claim as stated is false on the code. The
process-wide node resolver performs search-path lookup only: in an
environment where node.cmd exists next to the current executable but
nothing is discoverable on the search path, the adjacent-first policy the
claim describes would resolve it, yet NODE_EXECUTABLE resolves to none. -/
theorem c3_same_policy_counterexample :
    node_executable envC3 = none ∧
      adjacentThenPath envC3 ["node.cmd", "node"] = some "/opt/bin/node.cmd" ∧
      node_executable envC3 ≠ adjacentThenPath envC3 ["node.cmd", "node"] := by
  have ha : node_executable envC3 = none := rfl
  have hb : adjacentThenPath envC3 ["node.cmd", "node"] = some "/opt/bin/node.cmd" := rfl
  refine ⟨ha, hb, ?_⟩
  intro h
  rw [ha, hb] at h
  exact Option.noConfusion h

/-- C3 (amended): the process-wide resolvers expose each runtime as an
optional path, but only the interpreter runtime follows the
adjacent-to-current-executable-then-search-path policy: MOONRUN_EXECUTABLE
coincides with that policy on candidate list [moonrun], while
NODE_EXECUTABLE and PYTHON_EXECUTABLE are plain search-path lookups over
their candidate lists, with no adjacent-directory probe. -/
theorem c3_process_wide_resolvers (env : ProcEnv) :
    moonrun_executable env = adjacentThenPath env ["moonrun"] ∧
      node_executable env = pathSearchOnly env ["node.cmd", "node"] ∧
      python_executable env = pathSearchOnly env ["python3", "python", "python3.exe", "python.exe"] := by
  refine ⟨?_, rfl, rfl⟩
  unfold moonrun_executable adjacentThenPath
  cases h : env.exe_dir with
  | none => cases hw : env.which "moonrun" <;> simp [List.findSome?, hw]
  | some d =>
    have hap : d ++ "/" ++ "moonrun" = d ++ "/moonrun" := by
      rw [String.append_assoc]
      rfl
    by_cases he : env.exists_file (d ++ "/moonrun")
    · simp [List.findSome?, hap, he]
    · cases hw : env.which "moonrun" <;> simp [List.findSome?, hap, he, hw]

/-- C4: for every backend value and every combination of test spec present
and absent, command_for_cached produces exactly one invocation descriptor
whose first token is the backend executable reference and whose argument
sequence matches the dispatch table, in order; in particular the
bytecode-interpreter backends give [interpreter, artifact, --] without a
test spec and [interpreter, --test-args, serialized, artifact, --] with
one. -/
theorem c4_dispatch_table (env : WhichEnv) (fs : FsEnv) (cache : RuntimeExecutableCache)
    (path : String) (t : TestArgs) (s d : String)
    (hs : t.serde_json = some s) (hd : fs.temp_dir = some d)
    (h1 : fs.write_ok (d ++ "/driver.cjs") = true)
    (h2 : fs.write_ok (d ++ "/package.json") = true) :
    guardTokens (command_for_cached env fs cache TargetBackend.Wasm path none) =
        some [cache.moonrunPath env, path, "--"] ∧
      guardTokens (command_for_cached env fs cache TargetBackend.Wasm path (some t)) =
        some [cache.moonrunPath env, "--test-args", s, path, "--"] ∧
      guardTokens (command_for_cached env fs cache TargetBackend.WasmGC path none) =
        some [cache.moonrunPath env, path, "--"] ∧
      guardTokens (command_for_cached env fs cache TargetBackend.WasmGC path (some t)) =
        some [cache.moonrunPath env, "--test-args", s, path, "--"] ∧
      guardTokens (command_for_cached env fs cache TargetBackend.MoonGRES path none) =
        some [cache.rusticaEnginePath env, "run", path, "--"] ∧
      guardTokens (command_for_cached env fs cache TargetBackend.MoonGRES path (some t)) =
        some [cache.rusticaEnginePath env, "moontest", "--spec", s, path, "--"] ∧
      guardTokens (command_for_cached env fs cache TargetBackend.Js path none) =
        some [cache.nodePath env, path] ∧
      guardTokens (command_for_cached env fs cache TargetBackend.Js path (some t)) =
        some [cache.nodePath env, "--enable-source-maps", d ++ "/driver.cjs", s] ∧
      guardTokens (command_for_cached env fs cache TargetBackend.Native path none) =
        some [path] ∧
      guardTokens (command_for_cached env fs cache TargetBackend.Native path (some t)) =
        some [path, t.to_cli_args_for_native] ∧
      guardTokens (command_for_cached env fs cache TargetBackend.LLVM path none) =
        some [path] ∧
      guardTokens (command_for_cached env fs cache TargetBackend.LLVM path (some t)) =
        some [path, t.to_cli_args_for_native] := by
  refine ⟨rfl, ?_, rfl, ?_, rfl, ?_, rfl, ?_, rfl, rfl, rfl, rfl⟩ <;>
    simp [command_for_cached, create_js_driver, hs, hd, h1, h2, guardTokens,
      Command.new, Command.arg, Command.tokens, CommandGuard.ofCommand]

/-- C4 witness: concrete instance of the dispatch table with every
hypothesis discharged on the sample environment and test spec. -/
theorem c4_dispatch_table_witness :
    guardTokens (command_for_cached envNoFind fsOkTmp RuntimeExecutableCache.empty
        TargetBackend.Wasm "./a.wasm" none) = some ["moonrun", "./a.wasm", "--"] ∧
      guardTokens (command_for_cached envNoFind fsOkTmp RuntimeExecutableCache.empty
        TargetBackend.Js "./a.js" (some tC4)) =
        some ["node", "--enable-source-maps", "/tmp/x/driver.cjs", "S"] := by
  have h := c4_dispatch_table envNoFind fsOkTmp RuntimeExecutableCache.empty "./a.js" tC4
    "S" "/tmp/x" rfl rfl rfl rfl
  have h2 := c4_dispatch_table envNoFind fsOkTmp RuntimeExecutableCache.empty "./a.wasm" tC4
    "S" "/tmp/x" rfl rfl rfl rfl
  exact ⟨h2.1, h.2.2.2.2.2.2.2.1⟩

/-- C7: for the JS backend, with a test spec present the invocation runs
the resolved node runtime on the synthesized driver script instead of the
artifact, with the source-map flag enabled and the serialized test spec as
the trailing argument, and the guard owns the temporary directory; with no
test spec, node is invoked directly on the artifact path with no further
arguments. -/
theorem c7_js_dispatch (env : WhichEnv) (fs : FsEnv) (cache : RuntimeExecutableCache)
    (path : String) (t : TestArgs) (s d : String)
    (hs : t.serde_json = some s) (hd : fs.temp_dir = some d)
    (h1 : fs.write_ok (d ++ "/driver.cjs") = true)
    (h2 : fs.write_ok (d ++ "/package.json") = true) :
    command_for_cached env fs cache TargetBackend.Js path (some t) =
        Outcome.ok ⟨some d, ⟨cache.nodePath env, ["--enable-source-maps", d ++ "/driver.cjs", s]⟩⟩ ∧
      command_for_cached env fs cache TargetBackend.Js path none =
        Outcome.ok ⟨none, ⟨cache.nodePath env, [path]⟩⟩ := by
  constructor
  · simp [command_for_cached, create_js_driver, hd, h1, h2, hs,
      Command.new, Command.arg]
  · rfl

/-- C7 witness: concrete instance on the sample environments, with the
resolved node runtime falling back to the literal candidate name. -/
theorem c7_js_dispatch_witness :
    command_for_cached envNoFind fsOkTmp RuntimeExecutableCache.empty
        TargetBackend.Js "./a.js" (some tC4) =
      Outcome.ok ⟨some "/tmp/x", ⟨"node", ["--enable-source-maps", "/tmp/x/driver.cjs", "S"]⟩⟩ :=
  (c7_js_dispatch envNoFind fsOkTmp RuntimeExecutableCache.empty "./a.js" tC4
    "S" "/tmp/x" rfl rfl rfl rfl).1

set_option maxRecDepth 40000

/-- C6: driver synthesis performs the three literal substitutions on the
embedded template and writes the result as driver.cjs together with a
package.json manifest holding an empty object into the fresh temporary
directory, returning the directory and the script path; at the concrete
round-trip input, the synthesized text contains the forward-slash
normalized artifact path, the substituted testParams assignment and the
substituted packageName assignment. -/
theorem c6_driver_synthesis (fs : FsEnv) (js_path : String) (t : TestArgs) (d : String)
    (hd : fs.temp_dir = some d)
    (h1 : fs.write_ok (d ++ "/driver.cjs") = true)
    (h2 : fs.write_ok (d ++ "/package.json") = true) :
    create_js_driver fs js_path t =
        Outcome.ok ((d, d ++ "/driver.cjs"),
          [(d ++ "/driver.cjs", js_driver_substituted js_path t),
           (d ++ "/package.json", "\x7b\x7d")]) ∧
      strContains (js_driver_substituted "C:\\proj\\out.js" tC6) "C:/proj/out.js" = true ∧
      strContains (js_driver_substituted "C:\\proj\\out.js" tC6)
        "let testParams = [\x22--filter\x22,\x22foo\x22]" = true ∧
      strContains (js_driver_substituted "C:\\proj\\out.js" tC6)
        "let packageName = \x22pkg_a\x22" = true := by
  refine ⟨?_, by decide, by decide, by decide⟩
  simp [create_js_driver, hd, h1, h2]

/-- C6 witness: concrete instance of the synthesis equation on the sample
filesystem environment. -/
theorem c6_driver_synthesis_witness :
    create_js_driver fsOkTmp "C:\\proj\\out.js" tC6 =
      Outcome.ok (("/tmp/x", "/tmp/x" ++ "/driver.cjs"),
        [("/tmp/x" ++ "/driver.cjs", js_driver_substituted "C:\\proj\\out.js" tC6),
         ("/tmp/x" ++ "/package.json", "\x7b\x7d")]) :=
  (c6_driver_synthesis fsOkTmp "C:\\proj\\out.js" tC6 "/tmp/x" rfl rfl rfl).1

/-- Helper: when create_js_driver succeeds, the returned directory is the
freshly created temporary directory and the script path is driver.cjs
inside it. -/
theorem create_js_driver_ok_dir (fs : FsEnv) (p : String) (t : TestArgs)
    (dir driver : String) (w : List (String × String))
    (hc : create_js_driver fs p t = Outcome.ok ((dir, driver), w)) :
    fs.temp_dir = some dir ∧ driver = dir ++ "/driver.cjs" := by
  cases htd : fs.temp_dir with
  | none => simp [create_js_driver, htd] at hc
  | some d0 =>
    by_cases hw1 : fs.write_ok (d0 ++ "/driver.cjs")
    · by_cases hw2 : fs.write_ok (d0 ++ "/package.json")
      · simp only [create_js_driver, htd, hw1, hw2, if_true, Outcome.ok.injEq,
          Prod.mk.injEq] at hc
        obtain ⟨⟨hd1, hd2⟩, hw⟩ := hc
        subst hd1
        exact ⟨rfl, hd2.symm⟩
      · simp [create_js_driver, htd, hw1, hw2] at hc
    · simp [create_js_driver, htd, hw1] at hc

/-- C5: a guard returned by command_for_cached owns a temporary directory
exactly when the dispatch synthesized a driver script, that is for the JS
backend with a test spec present; in that case the owned directory is the
freshly created temporary directory, and in every other combination the
guard owns none (its destruction is then a no-op; the deletion itself is
the Drop of tempfile::TempDir, outside this embedding). -/
theorem c5_guard_owns_temp_iff (env : WhichEnv) (fs : FsEnv) (cache : RuntimeExecutableCache)
    (backend : TargetBackend) (path : String) (test : Option TestArgs) (g : CommandGuard)
    (h : command_for_cached env fs cache backend path test = Outcome.ok g) :
    (g.temp_file.isSome = true ↔ backend = TargetBackend.Js ∧ test.isSome = true) ∧
      (backend = TargetBackend.Js → test.isSome = true → g.temp_file = fs.temp_dir) := by
  cases backend with
  | Wasm =>
    cases test with
    | none =>
      simp only [command_for_cached] at h
      injection h with h'
      subst h'
      simp [CommandGuard.ofCommand]
    | some t =>
      cases ht : t.serde_json with
      | none => simp [command_for_cached, ht] at h
      | some s =>
        simp only [command_for_cached, ht] at h
        injection h with h'
        subst h'
        simp [CommandGuard.ofCommand]
  | WasmGC =>
    cases test with
    | none =>
      simp only [command_for_cached] at h
      injection h with h'
      subst h'
      simp [CommandGuard.ofCommand]
    | some t =>
      cases ht : t.serde_json with
      | none => simp [command_for_cached, ht] at h
      | some s =>
        simp only [command_for_cached, ht] at h
        injection h with h'
        subst h'
        simp [CommandGuard.ofCommand]
  | MoonGRES =>
    cases test with
    | none =>
      simp only [command_for_cached] at h
      injection h with h'
      subst h'
      simp [CommandGuard.ofCommand]
    | some t =>
      cases ht : t.serde_json with
      | none => simp [command_for_cached, ht] at h
      | some s =>
        simp only [command_for_cached, ht] at h
        injection h with h'
        subst h'
        simp [CommandGuard.ofCommand]
  | Js =>
    cases test with
    | none =>
      simp only [command_for_cached] at h
      injection h with h'
      subst h'
      simp [CommandGuard.ofCommand]
    | some t =>
      simp only [command_for_cached] at h
      cases hc : create_js_driver fs path t with
      | ok pr =>
        obtain ⟨⟨dir, driver⟩, w⟩ := pr
        rw [hc] at h
        cases ht : t.serde_json with
        | none => simp [ht] at h
        | some s =>
          simp only [ht] at h
          injection h with h'
          subst h'
          refine ⟨by simp, fun _ _ => ?_⟩
          exact ((create_js_driver_ok_dir fs path t dir driver w hc).1).symm
      | err e =>
        rw [hc] at h
        exact Outcome.noConfusion h
      | aborted m =>
        rw [hc] at h
        exact Outcome.noConfusion h
  | Native =>
    cases test with
    | none =>
      simp only [command_for_cached] at h
      injection h with h'
      subst h'
      simp [CommandGuard.ofCommand]
    | some t =>
      simp only [command_for_cached] at h
      injection h with h'
      subst h'
      simp [CommandGuard.ofCommand]
  | LLVM =>
    cases test with
    | none =>
      simp only [command_for_cached] at h
      injection h with h'
      subst h'
      simp [CommandGuard.ofCommand]
    | some t =>
      simp only [command_for_cached] at h
      injection h with h'
      subst h'
      simp [CommandGuard.ofCommand]

/-- C5 witness: concrete instance on the JS backend with a test spec, where
the built guard owns the created temporary directory. -/
theorem c5_guard_owns_temp_iff_witness :
    ((⟨some "/tmp/x", ⟨"node", ["--enable-source-maps", "/tmp/x/driver.cjs", "S"]⟩⟩ :
        CommandGuard).temp_file.isSome = true ↔
        TargetBackend.Js = TargetBackend.Js ∧ (some tC4).isSome = true) ∧
      (TargetBackend.Js = TargetBackend.Js → (some tC4).isSome = true →
        (⟨some "/tmp/x", ⟨"node", ["--enable-source-maps", "/tmp/x/driver.cjs", "S"]⟩⟩ :
          CommandGuard).temp_file = fsOkTmp.temp_dir) :=
  c5_guard_owns_temp_iff envNoFind fsOkTmp RuntimeExecutableCache.empty TargetBackend.Js
    "./a.js" (some tC4)
    ⟨some "/tmp/x", ⟨"node", ["--enable-source-maps", "/tmp/x/driver.cjs", "S"]⟩⟩
    (by decide)
